import Mathlib

/-!
Verification development for the Westeros dashboard repository.

The repository contains two map-building flows:
* src/map.py        : standalone map app (function map, lines 34-193);
* src/sameinad.py   : combined dashboard map output (function map, lines 213-389),
  which additionally supports a kingdom-name filter.

Both flows are one-shot pure pipelines over the query result rows, so they are
embedded here as pure functions from the row collections (locations, kingdoms,
houses) to an optional MapView value; the build evaluates to none exactly when
the code would raise while picking the initial map center.

External collaborators (shapely centroids, the matplotlib rainbow color scale,
the numpy global random generator) are modelled explicitly:
* the centroid of the union of a list of geometries is a parameter
  cFn : List Geom -> Option Pt, none on degenerate input;
* the sampled rainbow scale is a parameter sample : Rat -> String
  (the code calls colors.rgb2hex (colormap (i / n)));
* the numpy global generator is an explicit state (a natural number) threaded
  through the build; np.random.seed k replaces that state with one computed
  from k alone, and np.random.randint lo hi reduces a draw into [lo, hi),
  with hi exclusive, as in numpy.
-/

namespace Westeros

/-- A point in geographic coordinates, as a (lon, lat) pair of rationals. -/
abbrev Pt := ℚ × ℚ

/-- An opaque handle for a parsed WKT geometry (the claims never inspect the
shape itself, only which collection a centroid is computed from). -/
abbrev Geom := ℕ

/-- A row of the atlas.locations query (gid omitted: unused by the build).
The summary column is nullable, hence Option String. -/
structure Location where
  name : String
  ltype : String
  summary : Option String
  geom : Geom
  deriving DecidableEq

/-- A row of the atlas.kingdoms query (gid omitted: unused by the build). -/
structure Kingdom where
  name : String
  claimedby : String
  summary : Option String
  geom : Geom
  deriving DecidableEq

/-! ## Synthetic populations (map.py lines 72-74, sameinad.py lines 246-248)

The code is: np.random.seed(42); np.random.randint(100, 5000, size=n).
numpy itself is an external library; its global Mersenne Twister generator is
modelled as a state machine on ℕ with a linear congruential step.  The claims
depend only on (a) the state after seeding being a function of the seed alone
and (b) randint mapping a draw into the half-open range [lo, hi); neither
depends on the exact bit stream. -/

/-- Modelled from the spec: deterministic state derived from a seed value
(stands in for the numpy MT19937 initialisation, which is external code). -/
def mtInit (seed : ℕ) : ℕ := (seed * 1664525 + 1013904223) % 4294967296

/-- Modelled from the spec: one step of the global generator. -/
def rngNext (s : ℕ) : ℕ := (s * 1664525 + 1013904223) % 4294967296

/-- State of the generator after i draws from initial state s0. -/
def rngState (s0 : ℕ) : ℕ → ℕ
  | 0 => s0
  | i + 1 => rngNext (rngState s0 i)

/-- np.random.seed k: discards the previous global state and installs the
state determined by k alone. -/
def npSeed (_prev : ℕ) (k : ℕ) : ℕ := mtInit k

/-- np.random.randint lo hi: reduces one raw draw s into [lo, hi).  The upper
bound hi is exclusive, as in numpy. -/
def randint (lo hi s : ℕ) : ℕ := lo + s % (hi - lo)

/-- The population column: np.random.seed(42) then
np.random.randint(100, 5000, size=n), threading the global generator state. -/
def synthPops (globalRng : ℕ) (n : ℕ) : List ℕ :=
  let s0 := npSeed globalRng 42
  (List.range n).map (fun i => randint 100 5000 (rngState s0 i))

/-! ## Kingdom colors (map.py lines 76-79, sameinad.py lines 256-262) -/

/-- Color assignment of sameinad.py lines 256-262:
if n > 0 each row i gets rgb2hex (colormap (i / n)); otherwise the whole
color column is set to the constant gray value.  The sampled scale and the
gray constant are parameters (the scale is external matplotlib code); the
build instantiates gray with "gray". -/
def assignColors {α : Type} (sample : ℚ → α) (gray : α) (n : ℕ) : List α :=
  if 0 < n then (List.range n).map (fun (i : ℕ) => sample ((i : ℚ) / (n : ℚ)))
  else List.replicate n gray

/-- Color assignment of map.py lines 76-79: same sampling formula, with no
guard for n = 0 (the comprehension is simply empty there). -/
def assignColorsMapPy {α : Type} (sample : ℚ → α) (n : ℕ) : List α :=
  (List.range n).map (fun (i : ℕ) => sample ((i : ℚ) / (n : ℚ)))

/-! ## Settlement radius (map.py lines 160-166, sameinad.py lines 357-364) -/

/-- Minimum of the population column (pandas .min over the rows). -/
def popMin : List ℚ → ℚ
  | [] => 0
  | q :: qs => qs.foldl min q

/-- Maximum of the population column (pandas .max over the rows). -/
def popMax : List ℚ → ℚ
  | [] => 0
  | q :: qs => qs.foldl max q

/-- get_radius of both files: 5 + (pop - pop_min) / (pop_max - pop_min) * 10
when pop_max > pop_min, else the constant 10. -/
def get_radius (pop_min pop_max pop : ℚ) : ℚ :=
  if pop_max > pop_min then 5 + (pop - pop_min) / (pop_max - pop_min) * 10 else 10

/-! ## Popups and tooltips -/

/-- The fixed placeholder text used by every or-fallback popup. -/
def placeholderText : String := "No summary available."

/-- Python truthiness fallback: row summary or placeholder.  A null column
value and the empty string are both falsy. -/
def orPlaceholder : Option String → String
  | none => placeholderText
  | some s => if s = "" then placeholderText else s

/-- Location marker popup (map.py lines 110-114, sameinad.py lines 333-337),
with the surrounding whitespace of the f-string normalised away. -/
def locationPopup (l : Location) : String :=
  "<b>Name:</b> " ++ l.name ++ "<br><b>Type:</b> " ++ l.ltype ++
    "<br><b>Summary:</b> " ++ orPlaceholder l.summary

/-- House circle-marker popup (map.py lines 173-178, sameinad.py 369-374). -/
def housePopup (h : Location) (pop : ℕ) : String :=
  "<b>Name:</b> " ++ h.name ++ "<br><b>Population:</b> " ++ toString pop ++
    "<br><b>Type:</b> " ++ h.ltype ++ "<br><b>Summary:</b> " ++ orPlaceholder h.summary

/-- Kingdom polygon popup of map.py lines 143-148: an f-string with the
or-placeholder fallback on the summary. -/
def kingdomPopupMapPy (k : Kingdom) : String :=
  "<b>Name:</b> " ++ k.name ++ "<br><b>Claimed By:</b> " ++ k.claimedby ++
    "<br><b>Summary:</b> " ++ orPlaceholder k.summary

/-- Kingdom polygon popup of sameinad.py lines 302-306: a GeoJsonPopup over
the raw fields name, claimedby, summary with aliases; the summary field value
is rendered as is, with no placeholder substitution (a null summary renders
as the empty field value here). -/
def kingdomPopupSameinad (k : Kingdom) : String :=
  "Name: " ++ k.name ++ "<br>Claimed By: " ++ k.claimedby ++
    "<br>Summary: " ++ k.summary.getD ""

/-- Containment of one string in another, as infix of the character lists. -/
def strContains (s sub : String) : Prop := sub.data <:+: s.data

/-! ## Marker icon and color lookup tables -/

/-- color_mapping of sameinad.py lines 310-316. -/
def color_mapping : List (String × String) :=
  [("Castle", "red"), ("City", "blue"), ("Fortress", "green"), ("Keep", "orange")]

/-- icon_mapping of sameinad.py lines 318-324. -/
def icon_mapping : List (String × String) :=
  [("Castle", "shield-alt"), ("City", "building"), ("Fortress", "archway"),
   ("Keep", "home")]

/-- type_icon_mapping of map.py lines 98-105. -/
def type_icon_mapping : List (String × String) :=
  [("Castle", "fa-fort-awesome"), ("City", "fa-building"), ("Landmark", "fa-map-pin"),
   ("Region", "fa-globe"), ("Ruin", "fa-university"), ("Town", "fa-home")]

/-- A rendered location marker: icon name, marker color, popup text. -/
structure Marker where
  icon : String
  color : String
  popup : String
  deriving DecidableEq

/-- Location marker of sameinad.py lines 328-353: icon and color both come
from the lookup tables with defaults (dict.get with a default never raises;
the try/except around folium.Marker falls back to the same defaults). -/
def sameinadMarker (l : Location) : Marker :=
  { icon := (icon_mapping.lookup l.ltype).getD "info-circle"
    color := (color_mapping.lookup l.ltype).getD "gray"
    popup := locationPopup l }

/-- Location marker of map.py lines 109-125: only the icon is keyed by the
type table (default fa-info-circle); the marker color is the constant blue. -/
def mapPyMarker (l : Location) : Marker :=
  { icon := (type_icon_mapping.lookup l.ltype).getD "fa-info-circle"
    color := "blue"
    popup := locationPopup l }

/-- The fill opacity 0.5 of the kingdom polygon style, written with an
explicit constructor so that kernel evaluation of equality does not go
through rational division. -/
def fillOpacityHalf : ℚ := ⟨1, 2, by decide, Nat.coprime_one_left 2⟩

/-- A rendered kingdom polygon: style and popup data
(style_function: fillColor from the color column, black outline, weight 2,
fillOpacity 0.5). -/
structure KPoly where
  name : String
  color : String
  outline : String
  fillOpacity : ℚ
  popup : String
  deriving DecidableEq

/-- Kingdom polygon of sameinad.py lines 288-307. -/
def sameinadPoly (k : Kingdom) (c : String) : KPoly :=
  { name := k.name, color := c, outline := "black", fillOpacity := fillOpacityHalf
    popup := kingdomPopupSameinad k }

/-- Kingdom polygon of map.py lines 127-158. -/
def mapPyPoly (k : Kingdom) (c : String) : KPoly :=
  { name := k.name, color := c, outline := "black", fillOpacity := fillOpacityHalf
    popup := kingdomPopupMapPy k }

/-- A rendered settlement circle marker (both files: fixed blue color). -/
structure Circle where
  radius : ℚ
  color : String
  popup : String
  deriving DecidableEq

/-- CircleMarker row of map.py lines 170-187 and sameinad.py lines 366-383. -/
def houseCircle (mn mx : ℚ) (h : Location) (pop : ℕ) : Circle :=
  { radius := get_radius mn mx (pop : ℚ), color := "blue", popup := housePopup h pop }

/-- The layers added to the folium map, identified by role. -/
inductive Layer where
  | tiles
  | kingdomPolygons
  | locationCluster
  | settlementCircles
  | layerControl
  deriving DecidableEq

/-- The assembled map artifact. -/
structure MapView where
  center : Pt
  layers : List Layer
  polygons : List KPoly
  markers : List Marker
  circles : List Circle
  deriving DecidableEq

/-- Kingdom filter of sameinad.py lines 250-254: a truthy (nonempty) selection
restricts the kingdom rows by name; an empty selection leaves all rows. -/
def filterKingdoms (sel : List String) (ks : List Kingdom) : List Kingdom :=
  if sel = [] then ks else ks.filter (fun k => sel.contains k.name)

/-- Center choice of sameinad.py lines 264-268: the centroid of the union of
the (filtered) kingdom geometries when that collection is nonempty, else the
centroid of the union of the location geometries.  cFn is the external
shapely unary_union/centroid computation; a none result models the IndexError
raised by centroid.coords[0] on an empty geometry. -/
def sameinadCenter (cFn : List Geom → Option Pt) (ks : List Kingdom)
    (ls : List Location) : Option Pt :=
  if ks = [] then cFn (ls.map (·.geom)) else cFn (ks.map (·.geom))

/-- The map build of sameinad.py lines 213-389, as a pure function of the
query results, the selected kingdom names, the external collaborators and the
incoming global generator state.  Evaluates to none exactly when the center
computation fails. -/
def buildSameinad (cFn : List Geom → Option Pt) (sample : ℚ → String)
    (globalRng : ℕ) (sel : List String) (ls : List Location) (ks : List Kingdom)
    (hs : List Location) : Option MapView :=
  let pops := synthPops globalRng hs.length
  let ks' := filterKingdoms sel ks
  let kingdomColors := assignColors sample "gray" ks'.length
  let popsQ := pops.map (fun p => (p : ℚ))
  match sameinadCenter cFn ks' ls with
  | none => none
  | some c => some
      { center := c
        layers := [Layer.tiles, Layer.kingdomPolygons, Layer.locationCluster,
                   Layer.settlementCircles, Layer.layerControl]
        polygons := (ks'.zip kingdomColors).map (fun kc => sameinadPoly kc.1 kc.2)
        markers := ls.map sameinadMarker
        circles := (hs.zip pops).map
          (fun hp => houseCircle (popMin popsQ) (popMax popsQ) hp.1 hp.2) }

/-- The map build of map.py lines 34-193: no kingdom filter, the center is
always the centroid of the union of the location geometries (line 82), and
the marker cluster is added to the map before the kingdom polygon layer. -/
def buildMapPy (cFn : List Geom → Option Pt) (sample : ℚ → String)
    (globalRng : ℕ) (ls : List Location) (ks : List Kingdom)
    (hs : List Location) : Option MapView :=
  let pops := synthPops globalRng hs.length
  let kingdomColors := assignColorsMapPy sample ks.length
  let popsQ := pops.map (fun p => (p : ℚ))
  match cFn (ls.map (·.geom)) with
  | none => none
  | some c => some
      { center := c
        layers := [Layer.tiles, Layer.locationCluster, Layer.kingdomPolygons,
                   Layer.settlementCircles, Layer.layerControl]
        polygons := (ks.zip kingdomColors).map (fun kc => mapPyPoly kc.1 kc.2)
        markers := ls.map mapPyMarker
        circles := (hs.zip pops).map
          (fun hp => houseCircle (popMin popsQ) (popMax popsQ) hp.1 hp.2) }

/-! ## Concrete fixtures used by counterexamples and witnesses -/

/-- A concrete instance of the external centroid computation: none on an
empty geometry list, else the first geometry handle as a longitude.  It is
only used to instantiate the cFn parameter on concrete inputs. -/
def cexCentroid : List Geom → Option Pt
  | [] => none
  | g :: _ => some ((g : ℚ), 0)

/-- A concrete external color scale for instantiating sample. -/
def cexSample : ℚ → String := fun _ => "#8000ff"

/-- A concrete kingdom row with a null summary. -/
def cexKingdom : Kingdom :=
  { name := "The North", claimedby := "Stark", summary := none, geom := 1 }

/-- A concrete location row of a known type. -/
def cexLocation : Location :=
  { name := "Winterfell", ltype := "Castle", summary := none, geom := 2 }

/-- A concrete location row whose type is in none of the lookup tables. -/
def wallLocation : Location :=
  { name := "The Wall", ltype := "Wall", summary := some "An ice wall.", geom := 3 }

/-! ## Theorems -/

/-- Helper: the foldl-min of a list of equal values is that value. -/
lemma foldl_min_const (c : ℚ) :
    ∀ (qs : List ℚ) (q : ℚ), q = c → (∀ x ∈ qs, x = c) → qs.foldl min q = c := by
  intro qs
  induction qs with
  | nil => intro q hq _; simpa using hq
  | cons x xs ih =>
      intro q hq hall
      have hx : x = c := hall x (List.mem_cons_self x xs)
      have : min q x = c := by rw [hq, hx, min_self]
      exact ih _ this (fun y hy => hall y (List.mem_cons_of_mem x hy))

/-- Helper: the foldl-max of a list of equal values is that value. -/
lemma foldl_max_const (c : ℚ) :
    ∀ (qs : List ℚ) (q : ℚ), q = c → (∀ x ∈ qs, x = c) → qs.foldl max q = c := by
  intro qs
  induction qs with
  | nil => intro q hq _; simpa using hq
  | cons x xs ih =>
      intro q hq hall
      have hx : x = c := hall x (List.mem_cons_self x xs)
      have : max q x = c := by rw [hq, hx, max_self]
      exact ih _ this (fun y hy => hall y (List.mem_cons_of_mem x hy))

/-- C3: for a nonempty settlement set, the derived radius of population q is
5 + 10 (q - min) / (max - min) when max > min (so the minimum maps to 5 and
the maximum to 15), and the constant 10 when all populations are equal. -/
theorem C3_radius_formula (pops : List ℚ) (p c : ℚ) (hne : pops ≠ []) :
    (popMin pops < popMax pops →
      (∀ q, get_radius (popMin pops) (popMax pops) q
          = 5 + 10 * (q - popMin pops) / (popMax pops - popMin pops)) ∧
      get_radius (popMin pops) (popMax pops) (popMin pops) = 5 ∧
      get_radius (popMin pops) (popMax pops) (popMax pops) = 15) ∧
    ((∀ q ∈ pops, q = c) → get_radius (popMin pops) (popMax pops) p = 10) := by
  constructor
  · intro hlt
    have hd : popMax pops - popMin pops ≠ 0 := sub_ne_zero.mpr (ne_of_gt hlt)
    refine ⟨fun q => ?_, ?_, ?_⟩
    · rw [get_radius, if_pos hlt]; ring
    · rw [get_radius, if_pos hlt]; simp
    · rw [get_radius, if_pos hlt, div_self hd]; ring
  · intro hall
    obtain ⟨q, qs, rfl⟩ := List.exists_cons_of_ne_nil hne
    have hq : q = c := hall q (List.mem_cons_self q qs)
    have hqs : ∀ x ∈ qs, x = c := fun x hx => hall x (List.mem_cons_of_mem q hx)
    have hmn : popMin (q :: qs) = c := foldl_min_const c qs q hq hqs
    have hmx : popMax (q :: qs) = c := foldl_max_const c qs q hq hqs
    rw [hmn, hmx, get_radius, if_neg (lt_irrefl c)]

/-- Witness for C3 at the concrete population set {100, 5000}. -/
theorem C3_radius_formula_witness :
    get_radius (popMin [100, 5000]) (popMax [100, 5000]) 100 = 5 ∧
    get_radius (popMin [100, 5000]) (popMax [100, 5000]) 5000 = 15 ∧
    get_radius (popMin [3, 3]) (popMax [3, 3]) 3 = 10 := by
  have h1 := (C3_radius_formula [100, 5000] 0 0 (by simp)).1
  have h2 := (C3_radius_formula [3, 3] 3 3 (by simp)).2
  have hlt : popMin [100, 5000] < popMax [100, 5000] := by
    norm_num [popMin, popMax]
  have hmn : popMin [(100 : ℚ), 5000] = 100 := by norm_num [popMin]
  have hmx : popMax [(100 : ℚ), 5000] = 5000 := by norm_num [popMax]
  refine ⟨?_, ?_, h2 (by norm_num)⟩
  · have := (h1 hlt).2.1; rwa [hmn] at this
  · have := (h1 hlt).2.2; rwa [hmx] at this

/-- C5: the synthetic population draw is independent of the incoming global
generator state (np.random.seed 42 replaces it), so two builds with the same
settlement count produce identical population sequences, and both whole map
builds are reproducible across runs. -/
theorem C5_population_determinism (cFn : List Geom → Option Pt)
    (sample : ℚ → String) (st1 st2 : ℕ) (sel : List String)
    (ls : List Location) (ks : List Kingdom) (hs : List Location) (n : ℕ) :
    synthPops st1 n = synthPops st2 n ∧
    buildSameinad cFn sample st1 sel ls ks hs = buildSameinad cFn sample st2 sel ls ks hs ∧
    buildMapPy cFn sample st1 ls ks hs = buildMapPy cFn sample st2 ls ks hs :=
  ⟨rfl, rfl, rfl⟩

/-- C6 counterexample: the claim says the values are drawn uniformly over the
closed interval [100, 5000], but np.random.randint has an exclusive upper
bound, so the value 5000 can never appear in any synthesized population
column, whatever the generator state and the settlement count. -/
theorem C6_counterexample : ¬ ∃ st n : ℕ, 5000 ∈ synthPops st n := by
  rintro ⟨st, n, hmem⟩
  rw [synthPops, List.mem_map] at hmem
  obtain ⟨i, _, heq⟩ := hmem
  rw [randint] at heq
  have hlt : rngState (npSeed st 42) i % (5000 - 100) < 5000 - 100 :=
    Nat.mod_lt _ (by norm_num)
  omega

/-- C6 as amended: every synthesized population value lies in the half-open
interval [100, 5000), that is in [100, 4999], and every integer of that
range is attainable by the randint reduction (uniform support over
[100, 4999], not over the closed interval [100, 5000]). -/
theorem C6_population_range (st n p v : ℕ) (hp : p ∈ synthPops st n)
    (hv1 : 100 ≤ v) (hv2 : v ≤ 4999) :
    (100 ≤ p ∧ p ≤ 4999) ∧ ∃ s, randint 100 5000 s = v := by
  constructor
  · rw [synthPops, List.mem_map] at hp
    obtain ⟨i, _, heq⟩ := hp
    rw [randint] at heq
    have hlt : rngState (npSeed st 42) i % (5000 - 100) < 5000 - 100 :=
      Nat.mod_lt _ (by norm_num)
    omega
  · refine ⟨v - 100, ?_⟩
    rw [randint]
    have : (v - 100) % (5000 - 100) = v - 100 := Nat.mod_eq_of_lt (by omega)
    omega

/-- Witness for C6 as amended, on the first value drawn for one settlement. -/
theorem C6_population_range_witness :
    (100 ≤ 2973 ∧ 2973 ≤ 4999) ∧ ∃ s, randint 100 5000 s = 4999 :=
  C6_population_range 0 1 2973 4999 (by decide) (by decide) (by decide)

/-- C2: for N >= 1 kingdom rows the assigner gives row i the sampled scale
value at i / N, the assigned colors are pairwise distinct whenever the
external scale is injective, for N = 0 no colors are assigned and no error
is raised (the gray branch produces the empty column), and the map.py
assigner computes the same list for N >= 1. -/
theorem C2_color_assignment {α : Type} (sample : ℚ → α) (gray : α) (n : ℕ)
    (hinj : Function.Injective sample) (hn : 1 ≤ n) :
    (∀ i, i < n → (assignColors sample gray n)[i]?
        = some (sample ((i : ℚ) / (n : ℚ)))) ∧
    (assignColors sample gray n).Nodup ∧
    assignColors sample gray 0 = [] ∧
    assignColorsMapPy sample n = assignColors sample gray n := by
  have hpos : 0 < n := hn
  refine ⟨fun i hi => ?_, ?_, rfl, ?_⟩
  · rw [assignColors, if_pos hpos, List.getElem?_map, List.getElem?_range hi,
      Option.map_some']
  · rw [assignColors, if_pos hpos]
    have hinj2 : ∀ i ∈ List.range n, ∀ j ∈ List.range n,
        sample ((i : ℚ) / (n : ℚ)) = sample ((j : ℚ) / (n : ℚ)) → i = j := by
      intro i _ j _ hsij
      have hn0 : (n : ℚ) ≠ 0 := Nat.cast_ne_zero.mpr (by omega)
      have hdiv : (i : ℚ) / (n : ℚ) = (j : ℚ) / (n : ℚ) := hinj hsij
      have hcast : (i : ℚ) = (j : ℚ) := by
        field_simp at hdiv
        exact_mod_cast hdiv
      exact_mod_cast hcast
    exact List.Nodup.map_on hinj2 (List.nodup_range n)
  · rw [assignColorsMapPy, assignColors, if_pos hpos]

/-- Witness for C2 at three kingdoms, with the identity scale on ℚ. -/
theorem C2_color_assignment_witness :
    (assignColors (fun q : ℚ => q) 0 3).Nodup ∧
    (assignColors (fun q : ℚ => q) 0 3)[1]? = some (1 / 3) := by
  have h := C2_color_assignment (fun q : ℚ => q) 0 3 (fun a b hab => hab) (by norm_num)
  refine ⟨h.2.1, ?_⟩
  have := h.1 1 (by norm_num)
  simpa using this

/-- C7 counterexample: in map.py the marker color is the constant blue, not a
value keyed by the location-type color table: for the known type Castle the
color table of the repository gives red yet the marker is blue, and for the
unknown type Wall the marker is blue rather than the neutral default gray
used by the documented table fallback. -/
theorem C7_counterexample :
    (mapPyMarker cexLocation).color = "blue" ∧
    color_mapping.lookup cexLocation.ltype = some "red" ∧
    ("blue" : String) ≠ "red" ∧
    (mapPyMarker wallLocation).color = "blue" ∧
    ("blue" : String) ≠ "gray" := by
  refine ⟨rfl, by decide, by decide, rfl, by decide⟩

/-- C7 as amended: building a marker is total, so it never raises; in
sameinad.py both the icon and the color are keyed by the lookup tables and
fall back to the defaults info-circle and gray for unknown types; in map.py
only the icon is keyed by its table, with default fa-info-circle, and the
marker color is the constant blue for every type. -/
theorem C7_marker_defaults (l : Location) :
    (color_mapping.lookup l.ltype = none → (sameinadMarker l).color = "gray") ∧
    (icon_mapping.lookup l.ltype = none → (sameinadMarker l).icon = "info-circle") ∧
    (∀ c, color_mapping.lookup l.ltype = some c → (sameinadMarker l).color = c) ∧
    (∀ i, icon_mapping.lookup l.ltype = some i → (sameinadMarker l).icon = i) ∧
    (type_icon_mapping.lookup l.ltype = none → (mapPyMarker l).icon = "fa-info-circle") ∧
    (∀ i, type_icon_mapping.lookup l.ltype = some i → (mapPyMarker l).icon = i) ∧
    (mapPyMarker l).color = "blue" := by
  refine ⟨fun h => ?_, fun h => ?_, fun c h => ?_, fun i h => ?_, fun h => ?_,
    fun i h => ?_, rfl⟩ <;> simp [sameinadMarker, mapPyMarker, h]

/-- Witness for C7 on a location of the unknown type Wall. -/
theorem C7_marker_defaults_witness :
    (sameinadMarker wallLocation).color = "gray" ∧
    (sameinadMarker wallLocation).icon = "info-circle" ∧
    (mapPyMarker wallLocation).icon = "fa-info-circle" := by
  have h := C7_marker_defaults wallLocation
  exact ⟨h.1 (by decide), h.2.1 (by decide), h.2.2.2.2.1 (by decide)⟩

/-- Helper: the center of a successful sameinad build is the value of the
center choice, and the build fails exactly when the center choice does. -/
lemma buildSameinad_center_eq (cFn : List Geom → Option Pt) (sample : ℚ → String)
    (st : ℕ) (sel : List String) (ls : List Location) (ks : List Kingdom)
    (hs : List Location) :
    (buildSameinad cFn sample st sel ls ks hs).map (·.center)
      = sameinadCenter cFn (filterKingdoms sel ks) ls := by
  rw [buildSameinad]
  cases sameinadCenter cFn (filterKingdoms sel ks) ls <;> rfl

/-- Helper: the marker and circle layers of a successful sameinad build do
not depend on the kingdom selection. -/
lemma buildSameinad_markers_circles (cFn : List Geom → Option Pt)
    (sample : ℚ → String) (st : ℕ) (sel : List String) (ls : List Location)
    (ks : List Kingdom) (hs : List Location) (mv : MapView)
    (h : buildSameinad cFn sample st sel ls ks hs = some mv) :
    mv.markers = ls.map sameinadMarker ∧
    mv.circles = (hs.zip (synthPops st hs.length)).map
      (fun hp => houseCircle
        (popMin ((synthPops st hs.length).map (fun p => (p : ℚ))))
        (popMax ((synthPops st hs.length).map (fun p => (p : ℚ)))) hp.1 hp.2) ∧
    mv.layers = [Layer.tiles, Layer.kingdomPolygons, Layer.locationCluster,
                 Layer.settlementCircles, Layer.layerControl] := by
  rw [buildSameinad] at h
  cases hcen : sameinadCenter cFn (filterKingdoms sel ks) ls with
  | none => rw [hcen] at h; exact absurd h (by simp)
  | some c =>
      rw [hcen] at h
      obtain rfl := Option.some.inj h
      exact ⟨rfl, rfl, rfl⟩

/-- Helper: same shape for the map.py build. -/
lemma buildMapPy_shape (cFn : List Geom → Option Pt) (sample : ℚ → String)
    (st : ℕ) (ls : List Location) (ks : List Kingdom) (hs : List Location)
    (mv : MapView) (h : buildMapPy cFn sample st ls ks hs = some mv) :
    mv.layers = [Layer.tiles, Layer.locationCluster, Layer.kingdomPolygons,
                 Layer.settlementCircles, Layer.layerControl] := by
  rw [buildMapPy] at h
  cases hcen : cFn (ls.map (·.geom)) with
  | none => rw [hcen] at h; exact absurd h (by simp)
  | some c =>
      rw [hcen] at h
      obtain rfl := Option.some.inj h
      rfl

/-- C4: supplying a nonempty kingdom-name filter is the same as restricting
the Kingdom collection by name before the build, so color assignment and
centroid computation both see only the filtered subset; and the empty filter
leaves the Kingdom collection untouched. -/
theorem C4_filter_restricts_build (cFn : List Geom → Option Pt)
    (sample : ℚ → String) (st : ℕ) (sel : List String) (ls : List Location)
    (ks : List Kingdom) (hs : List Location) (hsel : sel ≠ []) :
    buildSameinad cFn sample st sel ls ks hs
      = buildSameinad cFn sample st [] ls
          (ks.filter (fun k => sel.contains k.name)) hs ∧
    filterKingdoms [] ks = ks := by
  constructor
  · simp [buildSameinad, filterKingdoms, hsel]
  · rfl

/-- Witness for C4 with the one-kingdom collection and a matching filter. -/
theorem C4_filter_restricts_build_witness :
    buildSameinad cexCentroid cexSample 0 ["The North"] [cexLocation] [cexKingdom] []
      = buildSameinad cexCentroid cexSample 0 [] [cexLocation]
          ([cexKingdom].filter (fun k => ["The North"].contains k.name)) [] ∧
    filterKingdoms [] [cexKingdom] = [cexKingdom] :=
  C4_filter_restricts_build cexCentroid cexSample 0 ["The North"] [cexLocation]
    [cexKingdom] [] (by simp)

/-- C10: the kingdom-name filter is frame-local to the polygon layer: the
location marker layer and the settlement circle layer of a build with any
selection are identical to those of the unfiltered build. -/
theorem C10_filter_frame_effect (cFn : List Geom → Option Pt)
    (sample : ℚ → String) (st : ℕ) (sel : List String) (ls : List Location)
    (ks : List Kingdom) (hs : List Location) (mv mv' : MapView)
    (h1 : buildSameinad cFn sample st sel ls ks hs = some mv)
    (h2 : buildSameinad cFn sample st [] ls ks hs = some mv') :
    mv.markers = mv'.markers ∧ mv.circles = mv'.circles := by
  obtain ⟨hm1, hc1, -⟩ := buildSameinad_markers_circles _ _ _ _ _ _ _ _ h1
  obtain ⟨hm2, hc2, -⟩ := buildSameinad_markers_circles _ _ _ _ _ _ _ _ h2
  exact ⟨hm1.trans hm2.symm, hc1.trans hc2.symm⟩

/-- Witness for C10: a filter that drops the only kingdom leaves the marker
and circle layers of the build unchanged. -/
theorem C10_filter_frame_effect_witness :
    ({ center := ((2 : ℚ), (0 : ℚ))
       layers := [Layer.tiles, Layer.kingdomPolygons, Layer.locationCluster,
                  Layer.settlementCircles, Layer.layerControl]
       polygons := []
       markers := [sameinadMarker cexLocation]
       circles := [] } : MapView).markers
      = ({ center := ((1 : ℚ), (0 : ℚ))
           layers := [Layer.tiles, Layer.kingdomPolygons, Layer.locationCluster,
                      Layer.settlementCircles, Layer.layerControl]
           polygons := [sameinadPoly cexKingdom (cexSample 0)]
           markers := [sameinadMarker cexLocation]
           circles := [] } : MapView).markers ∧
    ({ center := ((2 : ℚ), (0 : ℚ))
       layers := [Layer.tiles, Layer.kingdomPolygons, Layer.locationCluster,
                  Layer.settlementCircles, Layer.layerControl]
       polygons := []
       markers := [sameinadMarker cexLocation]
       circles := [] } : MapView).circles
      = ({ center := ((1 : ℚ), (0 : ℚ))
           layers := [Layer.tiles, Layer.kingdomPolygons, Layer.locationCluster,
                      Layer.settlementCircles, Layer.layerControl]
           polygons := [sameinadPoly cexKingdom (cexSample 0)]
           markers := [sameinadMarker cexLocation]
           circles := [] } : MapView).circles :=
  C10_filter_frame_effect cexCentroid cexSample 0 ["Dorne"] [cexLocation]
    [cexKingdom] [] _ _ (by decide) (by decide)

/-- C1 counterexample: in the map.py build the initial center is always the
centroid of the union of the Location geometries, even when the Kingdom
collection is nonempty (its centroid differs here), and that build fails
already when only the Location collection is empty, not when both are. -/
theorem C1_counterexample :
    ([cexKingdom] : List Kingdom) ≠ [] ∧
    (buildMapPy cexCentroid cexSample 0 [cexLocation] [cexKingdom] []).map (·.center)
      = some ((2 : ℚ), (0 : ℚ)) ∧
    cexCentroid ([cexKingdom].map (·.geom)) = some ((1 : ℚ), (0 : ℚ)) ∧
    (((2 : ℚ), (0 : ℚ)) : Pt) ≠ ((1 : ℚ), (0 : ℚ)) ∧
    buildMapPy cexCentroid cexSample 0 [] [cexKingdom] [] = none :=
  ⟨by decide, by decide, by decide, by decide, by decide⟩

/-- C1 as amended: in the sameinad build the initial center is the centroid
of the union of the (possibly filtered) Kingdom geometries, falling back to
the Location geometries exactly when the filtered Kingdom collection is
empty, and the build fails exactly when both collections are empty; in the
map.py build the center is always the Location centroid and the build fails
exactly when the Location collection is empty.  The hypothesis states the
behaviour of the external shapely centroid: defined exactly on nonempty
geometry lists. -/
theorem C1_center_choice (cFn : List Geom → Option Pt) (sample : ℚ → String)
    (st : ℕ) (sel : List String) (ls : List Location) (ks : List Kingdom)
    (hs : List Location)
    (hc : ∀ g : List Geom, (cFn g).isSome ↔ g ≠ []) :
    (filterKingdoms sel ks ≠ [] →
      (buildSameinad cFn sample st sel ls ks hs).map (·.center)
        = cFn ((filterKingdoms sel ks).map (·.geom))) ∧
    (filterKingdoms sel ks = [] →
      (buildSameinad cFn sample st sel ls ks hs).map (·.center)
        = cFn (ls.map (·.geom))) ∧
    (buildSameinad cFn sample st sel ls ks hs = none
        ↔ filterKingdoms sel ks = [] ∧ ls = []) ∧
    ((buildMapPy cFn sample st ls ks hs).map (·.center) = cFn (ls.map (·.geom))) ∧
    (buildMapPy cFn sample st ls ks hs = none ↔ ls = []) := by
  have hnone : ∀ g : List Geom, cFn g = none ↔ g = [] := by
    intro g
    rw [← Option.not_isSome_iff_eq_none, hc g, not_not]
  have hmapPyCenter : (buildMapPy cFn sample st ls ks hs).map (·.center)
      = cFn (ls.map (·.geom)) := by
    rw [buildMapPy]
    cases cFn (ls.map (·.geom)) <;> rfl
  have hcenter := buildSameinad_center_eq cFn sample st sel ls ks hs
  refine ⟨?_, ?_, ?_, hmapPyCenter, ?_⟩
  · intro hne
    rw [hcenter, sameinadCenter, if_neg hne]
  · intro heq
    rw [hcenter, sameinadCenter, if_pos heq]
  · have hfail : buildSameinad cFn sample st sel ls ks hs = none
        ↔ sameinadCenter cFn (filterKingdoms sel ks) ls = none := by
      rw [buildSameinad]
      cases sameinadCenter cFn (filterKingdoms sel ks) ls <;> simp
    rw [hfail, sameinadCenter]
    by_cases hks : filterKingdoms sel ks = []
    · rw [if_pos hks, hnone]
      simp [hks]
    · rw [if_neg hks, hnone]
      simp [hks]
  · have hfail : buildMapPy cFn sample st ls ks hs = none
        ↔ cFn (ls.map (·.geom)) = none := by
      rw [buildMapPy]
      cases cFn (ls.map (·.geom)) <;> simp
    rw [hfail, hnone]
    simp

/-- Witness for C1 on the concrete fixture collections, with the concrete
centroid instance that is defined exactly on nonempty lists. -/
theorem C1_center_choice_witness :
    (filterKingdoms [] [cexKingdom] ≠ [] →
      (buildSameinad cexCentroid cexSample 0 [] [cexLocation] [cexKingdom] []).map (·.center)
        = cexCentroid ((filterKingdoms [] [cexKingdom]).map (·.geom))) ∧
    (filterKingdoms [] [cexKingdom] = [] →
      (buildSameinad cexCentroid cexSample 0 [] [cexLocation] [cexKingdom] []).map (·.center)
        = cexCentroid ([cexLocation].map (·.geom))) ∧
    (buildSameinad cexCentroid cexSample 0 [] [cexLocation] [cexKingdom] [] = none
        ↔ filterKingdoms [] [cexKingdom] = [] ∧ ([cexLocation] : List Location) = []) ∧
    ((buildMapPy cexCentroid cexSample 0 [cexLocation] [cexKingdom] []).map (·.center)
        = cexCentroid ([cexLocation].map (·.geom))) ∧
    (buildMapPy cexCentroid cexSample 0 [cexLocation] [cexKingdom] [] = none
        ↔ ([cexLocation] : List Location) = []) :=
  C1_center_choice cexCentroid cexSample 0 [] [cexLocation] [cexKingdom] []
    (fun g => by cases g <;> simp [cexCentroid])

/-- C9 counterexample: in the map.py build the clustered location marker
layer is added to the map before the kingdom polygon layer, so the layer
order is not the claimed tiles, polygons, cluster, circles, control. -/
theorem C9_counterexample :
    (buildMapPy cexCentroid cexSample 0 [cexLocation] [cexKingdom] []).map (·.layers)
      = some [Layer.tiles, Layer.locationCluster, Layer.kingdomPolygons,
              Layer.settlementCircles, Layer.layerControl] ∧
    ([Layer.tiles, Layer.locationCluster, Layer.kingdomPolygons,
      Layer.settlementCircles, Layer.layerControl] : List Layer)
      ≠ [Layer.tiles, Layer.kingdomPolygons, Layer.locationCluster,
         Layer.settlementCircles, Layer.layerControl] :=
  ⟨by decide, by decide⟩

/-- C9 as amended: the sameinad build layers the map bottom to top as tiles,
kingdom polygons, clustered location markers, settlement circles, layer
control; the map.py build adds the clustered location markers before the
kingdom polygons instead. -/
theorem C9_layer_order (cFn : List Geom → Option Pt) (sample : ℚ → String)
    (st : ℕ) (sel : List String) (ls : List Location) (ks : List Kingdom)
    (hs : List Location) (mvS mvP : MapView)
    (hS : buildSameinad cFn sample st sel ls ks hs = some mvS)
    (hP : buildMapPy cFn sample st ls ks hs = some mvP) :
    mvS.layers = [Layer.tiles, Layer.kingdomPolygons, Layer.locationCluster,
                  Layer.settlementCircles, Layer.layerControl] ∧
    mvP.layers = [Layer.tiles, Layer.locationCluster, Layer.kingdomPolygons,
                  Layer.settlementCircles, Layer.layerControl] := by
  obtain ⟨-, -, hlayers⟩ := buildSameinad_markers_circles _ _ _ _ _ _ _ _ hS
  exact ⟨hlayers, buildMapPy_shape _ _ _ _ _ _ _ hP⟩

/-- Witness for C9 on the concrete fixture collections. -/
theorem C9_layer_order_witness :
    ({ center := ((2 : ℚ), (0 : ℚ))
       layers := [Layer.tiles, Layer.kingdomPolygons, Layer.locationCluster,
                  Layer.settlementCircles, Layer.layerControl]
       polygons := []
       markers := [sameinadMarker cexLocation]
       circles := [] } : MapView).layers
      = [Layer.tiles, Layer.kingdomPolygons, Layer.locationCluster,
         Layer.settlementCircles, Layer.layerControl] ∧
    ({ center := ((2 : ℚ), (0 : ℚ))
       layers := [Layer.tiles, Layer.locationCluster, Layer.kingdomPolygons,
                  Layer.settlementCircles, Layer.layerControl]
       polygons := []
       markers := [mapPyMarker cexLocation]
       circles := [] } : MapView).layers
      = [Layer.tiles, Layer.locationCluster, Layer.kingdomPolygons,
         Layer.settlementCircles, Layer.layerControl] :=
  C9_layer_order cexCentroid cexSample 0 [] [cexLocation] [] [] _ _
    (by decide) (by decide)

/-- Helper: a string is contained in any string it ends. -/
lemma strContains_append_right (a b : String) : strContains (a ++ b) b :=
  ⟨a.data, [], by simp [String.data_append]⟩

/-- C8 counterexample: the kingdom polygon popups of the sameinad build
render the raw summary field; for a kingdom whose summary is absent the
rendered popup does not contain the fixed placeholder string. -/
theorem C8_counterexample :
    cexKingdom.summary = none ∧
    (buildSameinad cexCentroid cexSample 0 [] [] [cexKingdom] []).map
        (fun mv => mv.polygons.map (·.popup))
      = some [kingdomPopupSameinad cexKingdom] ∧
    ¬ strContains (kingdomPopupSameinad cexKingdom) placeholderText :=
  ⟨rfl, by decide, by unfold strContains; decide⟩

/-- C8 as amended: the popups of location markers and settlement circle
markers in both builds, and of kingdom polygons in the map.py build, contain
the fixed placeholder when the summary is absent or empty, and contain the
summary text when one is present; the kingdom polygon popups of the sameinad
build render the raw summary field instead (see the counterexample). -/
theorem C8_popup_placeholder (l : Location) (k : Kingdom) (pop : ℕ) (s : String) :
    ((l.summary = none ∨ l.summary = some "") →
      strContains (locationPopup l) placeholderText ∧
      strContains (housePopup l pop) placeholderText) ∧
    ((k.summary = none ∨ k.summary = some "") →
      strContains (kingdomPopupMapPy k) placeholderText) ∧
    (l.summary = some s → s ≠ "" →
      strContains (locationPopup l) s ∧ strContains (housePopup l pop) s) ∧
    (k.summary = some s → s ≠ "" → strContains (kingdomPopupMapPy k) s) := by
  refine ⟨fun hl => ?_, fun hk => ?_, fun hl hs => ?_, fun hk hs => ?_⟩
  · have h : orPlaceholder l.summary = placeholderText := by
      rcases hl with h | h <;> simp [orPlaceholder, h]
    rw [locationPopup, housePopup, h]
    exact ⟨strContains_append_right _ _, strContains_append_right _ _⟩
  · have h : orPlaceholder k.summary = placeholderText := by
      rcases hk with h | h <;> simp [orPlaceholder, h]
    rw [kingdomPopupMapPy, h]
    exact strContains_append_right _ _
  · have h : orPlaceholder l.summary = s := by simp [orPlaceholder, hl, hs]
    rw [locationPopup, housePopup, h]
    exact ⟨strContains_append_right _ _, strContains_append_right _ _⟩
  · have h : orPlaceholder k.summary = s := by simp [orPlaceholder, hk, hs]
    rw [kingdomPopupMapPy, h]
    exact strContains_append_right _ _

/-- Witness for C8: a summary-less location, an empty-summary kingdom and a
location with a present summary. -/
theorem C8_popup_placeholder_witness :
    (strContains (locationPopup cexLocation) placeholderText ∧
      strContains (housePopup cexLocation 7) placeholderText) ∧
    strContains (kingdomPopupMapPy cexKingdom) placeholderText ∧
    (strContains (locationPopup wallLocation) "An ice wall." ∧
      strContains (housePopup wallLocation 7) "An ice wall.") :=
  ⟨(C8_popup_placeholder cexLocation cexKingdom 7 "" ).1 (Or.inl rfl),
   (C8_popup_placeholder cexLocation cexKingdom 7 "" ).2.1 (Or.inl rfl),
   (C8_popup_placeholder wallLocation cexKingdom 7 "An ice wall.").2.2.1
     rfl (by decide)⟩

end Westeros
